import Mathlib

/-!
Shallow embedding of `src/king_tire_inventory_react_supabase.jsx`
(KING-TIRE-INVENTORY): a single React component managing a tire inventory.

Modelling conventions:
* JavaScript scalar values that can reach the record fields and the form are
  modelled by `JVal` (null, string, or number).  Numbers are modelled as
  integers (`Int`); the fractional part of prices plays no role in any claim,
  and `Number(...)` on strings is modelled as parsing an optionally signed
  decimal integer (after trimming), with `none` standing for `NaN`.
* JavaScript string methods used by the source (`trim`, `toLowerCase`,
  `includes`, `split`, `join`, the quote-doubling `replace`) are defined
  character-by-character below, on ASCII-style whitespace
  (space, tab, CR, LF — the characters of `Char.isWhitespace`).
* The asynchronous handlers (`fetchTires`, `handleSave`, `handleDelete`) are
  modelled as step functions on an explicit `AppState`, taking the outcome of
  each backend call as an argument (`Except String _`), and returning the new
  state together with the list of backend calls issued, in order.
-/

/-- A JavaScript scalar value as it occurs in record fields and the form:
`null`/`undefined` (collapsed to `jnull`), a string, or a number
(modelled as an integer). -/
inductive JVal where
  | jnull : JVal
  | jstr : String → JVal
  | jnum : Int → JVal
deriving DecidableEq

namespace JVal

/-- JavaScript truthiness of a `JVal`: `null` is falsy, `""` is falsy,
`0` is falsy, everything else representable here is truthy. -/
def truthy : JVal → Bool
  | jnull => false
  | jstr s => s ≠ ""
  | jnum n => n ≠ 0

end JVal

open JVal

/-- JavaScript `a || b`: `a` when truthy, else `b`. -/
def jsOr (a b : JVal) : JVal := if a.truthy then a else b

/-- Characters that the JavaScript `trim` removes, restricted to the ASCII
whitespace the model covers. -/
def jsWs (c : Char) : Bool := c.isWhitespace

/-- Drop leading then trailing whitespace from a character list (`trim`). -/
def trimChars (l : List Char) : List Char :=
  ((l.dropWhile jsWs).reverse.dropWhile jsWs).reverse

/-- JavaScript `s.trim()`. -/
def jsTrim (s : String) : String := ⟨trimChars s.data⟩

/-- JavaScript `s.toLowerCase()` (ASCII model via `Char.toLower`). -/
def jsToLower (s : String) : String := ⟨s.data.map Char.toLower⟩

/-- Does the character list `h` start with `n`? -/
def leadsWith : List Char → List Char → Bool
  | [], _ => true
  | _ :: _, [] => false
  | a :: n, c :: t => a == c && leadsWith n t

/-- Does `h` contain `n` as a contiguous run? (`String.includes` on data.) -/
def hasRun (n : List Char) : List Char → Bool
  | [] => n.isEmpty
  | c :: t => leadsWith n (c :: t) || hasRun n t

/-- JavaScript `hay.includes(q)`. -/
def jsIncludes (hay q : String) : Bool := hasRun q.data hay.data

/-- Accumulating decimal parse of a character list; `none` on any
non-digit. -/
def parseDigits (acc : Nat) : List Char → Option Nat
  | [] => some acc
  | c :: t => if c.isDigit then parseDigits (acc * 10 + (c.toNat - 48)) t
              else none

/-- Parse a non-empty all-digit character list as a natural. -/
def parseNat : List Char → Option Nat
  | [] => none
  | c :: t => parseDigits 0 (c :: t)

/-- Parse an optionally signed decimal integer. -/
def parseInt : List Char → Option Int
  | '-' :: t => (parseNat t).map fun n => -(n : Int)
  | '+' :: t => (parseNat t).map fun n => (n : Int)
  | l => (parseNat l).map fun n => (n : Int)

/-- JavaScript `Number(x)` followed by consulting `NaN`:
`none` models `NaN`.  `Number(null) = 0`; a number maps to itself; a string
is trimmed and parsed as an optionally signed decimal integer, the empty
string giving `0`. -/
def jsNumber : JVal → Option Int
  | jnull => some 0
  | jnum n => some n
  | jstr s =>
      match trimChars s.data with
      | [] => some 0
      | l => parseInt l

/-- JavaScript `(c ?? "").toString()`: null becomes the empty string,
a string is itself, a number prints in decimal. -/
def jsToString : JVal → String
  | jnull => ""
  | jstr s => s
  | jnum n => toString n

/-- The `tires` table row (fields as in the Supabase schema of the source).
`id` and the timestamps are store-generated; the timestamps are modelled
as naturals. -/
structure Tire where
  id : Nat
  sku : JVal
  brand : JVal
  model : JVal
  size : JVal
  ply : JVal
  price : JVal
  condition : JVal
  quantity : JVal
  notes : JVal
  image_path : JVal
  created_at : Nat
  updated_at : Nat
deriving DecidableEq

/-- A pending image file: only its name matters to the logic. -/
structure UFile where
  name : String
deriving DecidableEq

/-- The form state of the component (the `form` `useState`). -/
structure Form where
  sku : JVal
  brand : JVal
  model : JVal
  size : JVal
  ply : JVal
  price : JVal
  condition : JVal
  quantity : JVal
  notes : JVal
  image_file : Option UFile
deriving DecidableEq

/-- The form contents set by `resetForm` (also the initial `useState` value):
all text fields empty, condition `"New"`, quantity `1`, no pending file. -/
def initialForm : Form :=
  { sku := jstr "", brand := jstr "", model := jstr "", size := jstr "",
    ply := jstr "", price := jstr "", condition := jstr "New",
    quantity := jnum 1, notes := jstr "", image_file := none }

/-- Seeding by `handleEdit(tire)`: the form seeded from an existing record, with the
source's `|| default` fallbacks. -/
def editForm (t : Tire) : Form :=
  { sku := jsOr t.sku (jstr ""), brand := jsOr t.brand (jstr ""),
    model := jsOr t.model (jstr ""), size := jsOr t.size (jstr ""),
    ply := jsOr t.ply (jstr ""), price := jsOr t.price (jstr ""),
    condition := jsOr t.condition (jstr "New"),
    quantity := jsOr t.quantity (jnum 1),
    notes := jsOr t.notes (jstr ""), image_file := none }

/-- The payload `handleSave` writes to the store. -/
structure Payload where
  sku : JVal
  brand : JVal
  model : JVal
  size : JVal
  ply : JVal
  price : JVal
  condition : JVal
  quantity : JVal
  notes : JVal
  image_path : JVal
  updated_at : Nat
deriving DecidableEq

/-- The payload built in `handleSave`:
`price: form.price || 0`, `quantity: Number(form.quantity) || 0`
(where `n || 0` collapses `NaN` and `0` alike to `0`),
`updated_at: new Date().toISOString()` modelled as the current time `now`. -/
def mkPayload (f : Form) (image_path : JVal) (now : Nat) : Payload :=
  { sku := f.sku, brand := f.brand, model := f.model, size := f.size,
    ply := f.ply, price := jsOr f.price (jnum 0), condition := f.condition,
    quantity := jnum ((jsNumber f.quantity).getD 0), notes := f.notes,
    image_path := image_path, updated_at := now }

/-- Splitting on dots, as `split(".")` does: JavaScript split never returns an
empty array (splitting the empty string gives `[""]`). -/
def splitDot : List Char → List (List Char)
  | [] => [[]]
  | c :: t =>
      if c = '.' then [] :: splitDot t
      else
        match splitDot t with
        | [] => [[c]]
        | h :: r => (c :: h) :: r

/-- Reading `.pop()` off a non-empty array: its last element (default `[]`,
unreachable since `splitDot` is never empty). -/
def lastPiece : List (List Char) → List Char
  | [] => []
  | [x] => x
  | _ :: y :: r => lastPiece (y :: r)

/-- JavaScript `file.name.split(".").pop()`: the last dot-separated component of the
file name. -/
def fileExt (name : String) : String := ⟨lastPiece (splitDot name.data)⟩

/-- The freshly generated storage name
`` `${Date.now()}-${Math.random().toString(36).slice(2)}.${fileExt}` ``,
with `Date.now()` as `now` and the random suffix as `rand`. -/
def fileNameOf (now : Nat) (rand : String) (f : UFile) : String :=
  toString now ++ "-" ++ rand ++ "." ++ fileExt f.name

/-- A backend call issued by a handler, in issue order. -/
inductive Call where
  | upload : String → Call
  | insert : Payload → Call
  | update : Nat → Payload → Call
  | delete : Nat → Call
  | fetch : Call
deriving DecidableEq

/-- The component state (the `useState` hooks of `KingTireInventory`). -/
structure AppState where
  tires : List Tire
  loading : Bool
  filter : String
  formOpen : Bool
  editing : Option Tire
  form : Form
  toasts : List String
deriving DecidableEq

/-- Outcome of `fetchTires()` once its backend call resolved: on error a toast is shown
and `tires` is untouched; on success `tires` is replaced by the data
(`data || []` — the model's list is already total).  `loading` ends `false`. -/
def fetchTiresStep (s : AppState) (r : Except String (List Tire)) : AppState :=
  match r with
  | .error m =>
      { s with toasts := ("Failed to load tires: " ++ m) :: s.toasts,
               loading := false }
  | .ok data => { s with tires := data, loading := false }

/-- JavaScript `err.message || "Save failed"` for the catch-all toast of `handleSave`. -/
def saveToastMsg (m : String) : String := if m = "" then "Save failed" else m

/-- The tail of `handleSave` after the image phase: build the payload, route
to update or insert, and on success reset the form, close it, and refetch.
`calls` are the backend calls already issued (the upload, if any). -/
def handleSaveWrite (s : AppState) (ip : JVal) (now : Nat)
    (wr : Except String Unit) (fr : Except String (List Tire))
    (calls : List Call) : AppState × List Call :=
  let p := mkPayload s.form ip now
  let wc := match s.editing with
    | some t => Call.update t.id p
    | none => Call.insert p
  match wr with
  | .error m =>
      ({ s with toasts := saveToastMsg m :: s.toasts, loading := false },
       calls ++ [wc])
  | .ok _ =>
      let msg := match s.editing with
        | some _ => "Tire updated"
        | none => "Tire added"
      let s1 := { s with editing := none, form := initialForm,
                         formOpen := false, toasts := msg :: s.toasts }
      ({ fetchTiresStep s1 fr with loading := false },
       calls ++ [wc, Call.fetch])

/-- Step function of `handleSave`: if a pending image file is present it is uploaded first
under a freshly generated name, and that name becomes the payload's
`image_path`; otherwise the payload keeps `editing.image_path` (or null for
a new record).  Any thrown error is caught: a toast is shown and nothing
else changes. -/
def handleSaveStep (s : AppState) (now : Nat) (rand : String)
    (up : Except String Unit) (wr : Except String Unit)
    (fr : Except String (List Tire)) : AppState × List Call :=
  match s.form.image_file with
  | some f =>
      let nm := fileNameOf now rand f
      (match up with
       | .error m =>
           ({ s with toasts := saveToastMsg m :: s.toasts, loading := false },
            [Call.upload nm])
       | .ok _ => handleSaveWrite s (jstr nm) now wr fr [Call.upload nm])
  | none =>
      handleSaveWrite s
        (match s.editing with
         | some t => t.image_path
         | none => jnull)
        now wr fr []

/-- Step function of `handleDelete(id)`: nothing happens without confirmation; once confirmed
the delete call is issued, a failure toasts and leaves the list alone, a
success toasts and refetches. -/
def handleDeleteStep (s : AppState) (id : Nat) (confirm : Bool)
    (dr : Except String Unit) (fr : Except String (List Tire)) :
    AppState × List Call :=
  if confirm then
    match dr with
    | .error m =>
        ({ s with toasts := ("Delete failed: " ++ m) :: s.toasts,
                  loading := false },
         [Call.delete id])
    | .ok _ =>
        ({ fetchTiresStep { s with toasts := "Deleted" :: s.toasts } fr with
             loading := false },
         [Call.delete id, Call.fetch])
  else (s, [])

/-- JavaScript `(t.field || "")` rendered as the string searched in
(`null` becomes `""`; a number is rendered in decimal, harmless here since
the searched columns are text). -/
def strOrEmpty (v : JVal) : String :=
  match v with
  | jnull => ""
  | jstr s => s
  | jnum n => toString n

/-- The filter predicate of `filteredTires`: one of brand, model, size or
sku (null read as `""`, lowercased) contains the prepared query `q`. -/
def tireMatches (q : String) (t : Tire) : Bool :=
  jsIncludes (jsToLower (strOrEmpty t.brand)) q ||
  jsIncludes (jsToLower (strOrEmpty t.model)) q ||
  jsIncludes (jsToLower (strOrEmpty t.size)) q ||
  jsIncludes (jsToLower (strOrEmpty t.sku)) q

/-- Source `filteredTires()`: trim and lowercase the query; an empty result
returns the full list, otherwise keep the matching records. -/
def filteredTires (ts : List Tire) (filter : String) : List Tire :=
  let q := jsToLower (jsTrim filter)
  if q = "" then ts
  else ts.filter (tireMatches q)

/-- Source `inventoryCount()`: `tires.reduce((acc, t) => acc + (Number(t.quantity) || 0), 0)`. -/
def inventoryCount (ts : List Tire) : Int :=
  ts.foldl (fun acc t => acc + ((jsNumber t.quantity).getD 0)) 0

/-- JavaScript replace of every double-quote character by two of them
(the `replace` regex call of `downloadCSV`). -/
def jsReplaceQuotes : List Char → List Char
  | [] => []
  | c :: t =>
      if c = '"' then '"' :: '"' :: jsReplaceQuotes t
      else c :: jsReplaceQuotes t

/-- One CSV field of `downloadCSV`: the value rendered by `jsToString`,
its double quotes doubled, the whole wrapped in double quotes. -/
def csvField (c : JVal) : String :=
  "\"" ++ (⟨jsReplaceQuotes (jsToString c).data⟩ : String) ++ "\""

/-- The header row of `downloadCSV`. -/
def csvHeaderRow : List JVal :=
  [jstr "sku", jstr "brand", jstr "model", jstr "size", jstr "ply",
   jstr "price", jstr "condition", jstr "quantity", jstr "notes",
   jstr "image_path"]

/-- One record's row of `downloadCSV`. -/
def csvTireRow (t : Tire) : List JVal :=
  [t.sku, t.brand, t.model, t.size, t.ply, t.price, t.condition,
   t.quantity, t.notes, t.image_path]

/-- The CSV text of `downloadCSV` for a record list: every field quoted and
joined by commas, rows joined by `"\n"`, header first. -/
def downloadCSVText (ts : List Tire) : String :=
  String.intercalate "\n"
    ((csvHeaderRow :: ts.map csvTireRow).map fun r =>
      String.intercalate "," (r.map csvField))

/-- Source `downloadCSV()` reads the full `tires` state, not the filtered view. -/
def downloadCSVFromState (s : AppState) : String := downloadCSVText s.tires

/-- The "SKUs" figure rendered in the header: `tires.length`. -/
def skuCount (ts : List Tire) : Nat := ts.length

/-! ## Spec-side definitions

These definitions follow the words of the specification and the claims, to
be compared with the source embeddings above. -/

/-- Spec-side escaping: double-quote characters are escaped by doubling. -/
def csvSpecEscape (s : String) : String :=
  ⟨s.data.flatMap fun c => if c = '"' then ['"', '"'] else [c]⟩

/-- Spec-side field serialisation: the field value stringified
(null/undefined becoming the empty string), quotes doubled, and the whole
wrapped in double quotes regardless of content. -/
def csvSpecQuote (v : JVal) : String :=
  "\"" ++ csvSpecEscape (jsToString v) ++ "\""

/-- Spec-side header row of the export, as written in the claim. -/
def csvSpecHeaderLine : String :=
  "\"sku\",\"brand\",\"model\",\"size\",\"ply\",\"price\",\"condition\",\"quantity\",\"notes\",\"image_path\""

/-- Spec-side record row: the ten fields serialised and joined by commas. -/
def csvSpecLine (t : Tire) : String :=
  String.intercalate "," ((csvTireRow t).map csvSpecQuote)

/-- Claim-side search predicate, as C4 words it: the query (as given) is a
case-insensitive substring of at least one of brand, model, size, or sku. -/
def claimMatch (t : Tire) (q : String) : Bool :=
  jsIncludes (jsToLower (strOrEmpty t.brand)) (jsToLower q) ||
  jsIncludes (jsToLower (strOrEmpty t.model)) (jsToLower q) ||
  jsIncludes (jsToLower (strOrEmpty t.size)) (jsToLower q) ||
  jsIncludes (jsToLower (strOrEmpty t.sku)) (jsToLower q)

/-- Spec-side quantity of a record: its numeric quantity field, read as an
integer (0 for anything non-numeric, which the totals claim excludes by
hypothesis). -/
def tireQty (t : Tire) : Int :=
  match t.quantity with
  | jnum n => n
  | _ => 0

/-! ## Helper lemmas -/

theorem jsReplaceQuotes_eq_bind (l : List Char) :
    jsReplaceQuotes l = l.flatMap fun c => if c = '"' then ['"', '"'] else [c] := by
  induction l with
  | nil => rfl
  | cons c t ih => by_cases h : c = '"' <;> simp [jsReplaceQuotes, h, ih]

theorem csvField_eq_spec (v : JVal) : csvField v = csvSpecQuote v := by
  simp [csvField, csvSpecQuote, csvSpecEscape, jsReplaceQuotes_eq_bind]

theorem dropWhile_ws_append (a l : List Char) (ha : ∀ c ∈ a, jsWs c) :
    (a ++ l).dropWhile jsWs = l.dropWhile jsWs := by
  induction a with
  | nil => rfl
  | cons c t ih =>
      simp only [List.cons_append, List.dropWhile_cons,
        ha c (List.mem_cons_self c t), if_true]
      exact ih fun x hx => ha x (List.mem_cons_of_mem c hx)

theorem dropWhile_ws_all_nil (a : List Char) (ha : ∀ c ∈ a, jsWs c) :
    a.dropWhile jsWs = [] := by
  have h := dropWhile_ws_append a [] ha
  simpa using h

theorem dropWhile_append_of_ne_nil (q b : List Char)
    (h : q.dropWhile jsWs ≠ []) :
    (q ++ b).dropWhile jsWs = q.dropWhile jsWs ++ b := by
  induction q with
  | nil => simp at h
  | cons c t ih =>
      by_cases hc : jsWs c
      · simp only [List.cons_append, List.dropWhile_cons, hc, if_true] at h ⊢
        exact ih h
      · simp [List.dropWhile_cons, hc]

theorem dropWhile_append_of_nil (q b : List Char)
    (h : q.dropWhile jsWs = []) :
    (q ++ b).dropWhile jsWs = b.dropWhile jsWs := by
  induction q with
  | nil => rfl
  | cons c t ih =>
      by_cases hc : jsWs c
      · simp only [List.cons_append, List.dropWhile_cons, hc, if_true] at h ⊢
        exact ih h
      · simp [List.dropWhile_cons, hc] at h

theorem trimChars_pad (a q b : List Char) (ha : ∀ c ∈ a, jsWs c)
    (hb : ∀ c ∈ b, jsWs c) : trimChars (a ++ q ++ b) = trimChars q := by
  unfold trimChars
  rw [List.append_assoc, dropWhile_ws_append a (q ++ b) ha]
  by_cases h : q.dropWhile jsWs = []
  · rw [dropWhile_append_of_nil q b h, dropWhile_ws_all_nil b hb, h]
  · rw [dropWhile_append_of_ne_nil q b h, List.reverse_append,
      dropWhile_ws_append b.reverse _ fun c hc => hb c (List.mem_reverse.mp hc)]

theorem jsTrim_pad (a q b : String) (ha : ∀ c ∈ a.data, jsWs c)
    (hb : ∀ c ∈ b.data, jsWs c) : jsTrim (a ++ q ++ b) = jsTrim q := by
  have hd : (a ++ q ++ b).data = a.data ++ q.data ++ b.data := by
    simp [String.data_append]
  unfold jsTrim
  rw [hd, trimChars_pad a.data q.data b.data ha hb]

theorem jsTrim_all_ws (q : String) (h : ∀ c ∈ q.data, jsWs c) :
    jsTrim q = "" := by
  simp [jsTrim, trimChars, dropWhile_ws_all_nil q.data h]

theorem jsToLower_eq_empty (s : String) : jsToLower s = "" ↔ s = "" := by
  cases s with
  | mk l =>
      cases l with
      | nil => simp [jsToLower]
      | cons c t =>
          constructor
          · intro h
            have hd : ((⟨(c :: t).map Char.toLower⟩ : String)).data = "".data :=
              congrArg String.data h
            simp at hd
          · intro h
            have hd : (c :: t) = ([] : List Char) := congrArg String.data h
            simp at hd

theorem filteredTires_trim_congr (ts : List Tire) (f1 f2 : String)
    (h : jsTrim f1 = jsTrim f2) :
    filteredTires ts f1 = filteredTires ts f2 := by
  simp only [filteredTires, h]

/-- A concrete record used by the concrete evaluations below. -/
def acmeTire : Tire :=
  { id := 1, sku := jstr "T-100", brand := jstr "Acme Tires",
    model := jstr "Road", size := jstr "225/45R17", ply := jstr "4",
    price := jnum 49, condition := jstr "New", quantity := jnum 4,
    notes := jstr "", image_path := jnull, created_at := 5, updated_at := 5 }

/-! ## Claim theorems -/

/-- C1: the CSV export of any state is exactly the header row
(sku, brand, model, size, ply, price, condition, quantity, notes,
image_path) followed by one row per record of the full pre-filter list in
order, every field stringified (null/undefined as the empty string),
double quotes doubled, every field wrapped in quotes, fields joined by
commas and rows by line breaks; the active filter never affects the
export, and the documented example note escapes as stated. -/
theorem C1_csv_export (s : AppState) :
    downloadCSVFromState s =
      String.intercalate "\n" (csvSpecHeaderLine :: s.tires.map csvSpecLine) ∧
    (∀ q, downloadCSVFromState { s with filter := q } = downloadCSVFromState s) ∧
    csvField (jstr "He said \"ok\"") = "\"He said \"\"ok\"\"\"" := by
  refine ⟨?_, fun q => rfl, by decide⟩
  have hfun : csvField = csvSpecQuote := funext csvField_eq_spec
  have hline : ∀ t : Tire,
      String.intercalate "," ((csvTireRow t).map csvField) = csvSpecLine t :=
    fun t => by rw [csvSpecLine, hfun]
  have hh : String.intercalate "," (csvHeaderRow.map csvField) =
      csvSpecHeaderLine := by rw [hfun]; decide
  simp only [downloadCSVFromState, downloadCSVText, List.map_cons,
    List.map_map]
  rw [hh]
  have hmap : List.map
      ((fun r => String.intercalate "," (List.map csvField r)) ∘ csvTireRow)
      s.tires = List.map csvSpecLine s.tires :=
    List.map_congr_left fun t _ => hline t
  rw [hmap]

/-- C4 (amended): the search filter returns exactly the records for which
the trimmed query is a case-insensitive substring of at least one of
brand, model, size, or sku (logical OR, null fields read as empty), and a
query that trims to the empty string returns the unfiltered set.  (As
stated, with the untrimmed query, the claim fails: see the
counterexample.) -/
theorem C4_search_filter (ts : List Tire) (q : String) :
    filteredTires ts q =
      if jsTrim q = "" then ts
      else ts.filter fun t => claimMatch t (jsTrim q) := by
  have hlow : jsToLower "" = "" := rfl
  by_cases h : jsTrim q = ""
  · rw [if_pos h]
    simp [filteredTires, h, hlow]
  · rw [if_neg h]
    have h2 : ¬ jsToLower (jsTrim q) = "" := fun hh =>
      h ((jsToLower_eq_empty _).mp hh)
    have hp : tireMatches (jsToLower (jsTrim q)) =
        fun t => claimMatch t (jsTrim q) :=
      funext fun t => by simp [tireMatches, claimMatch]
    simp [filteredTires, h2, hp]

/-- C4 counterexample: with the query `" acme "` the filter keeps the
record with brand `"Acme Tires"`, although the query as given (untrimmed)
is not a case-insensitive substring of any of the four searched fields of
that record — the filter does not return exactly the records the claim
describes. -/
theorem C4_untrimmed_cex :
    filteredTires [acmeTire] " acme " = [acmeTire] ∧
    claimMatch acmeTire " acme " = false := by decide

/-- C5: the search filter is idempotent, its result is a subsequence of
the underlying list (order preserved, list unmutated), and clearing the
query restores the exact original list. -/
theorem C5_search_algebra (ts : List Tire) (q : String) :
    filteredTires (filteredTires ts q) q = filteredTires ts q ∧
    List.Sublist (filteredTires ts q) ts ∧
    filteredTires ts "" = ts := by
  have h0 : filteredTires ts "" = ts := rfl
  by_cases h : jsToLower (jsTrim q) = ""
  · have h1 : filteredTires ts q = ts := by simp [filteredTires, h]
    rw [h1]
    exact ⟨h1, List.Sublist.refl ts, h0⟩
  · have h1 : filteredTires ts q =
        ts.filter (tireMatches (jsToLower (jsTrim q))) := by
      simp [filteredTires, h]
    refine ⟨?_, ?_, h0⟩
    · rw [h1]
      simp [filteredTires, h, List.filter_filter]
    · rw [h1]
      exact List.filter_sublist ts

/-- C10: the query is trimmed before filtering — surrounding any query
with whitespace never changes the filter result, and a query consisting
only of whitespace returns the full unfiltered set. -/
theorem C10_query_trimming (ts : List Tire) (q a b : String)
    (ha : ∀ c ∈ a.data, jsWs c) (hb : ∀ c ∈ b.data, jsWs c) :
    filteredTires ts (a ++ q ++ b) = filteredTires ts q ∧
    ((∀ c ∈ q.data, jsWs c) → filteredTires ts q = ts) := by
  have hlow : jsToLower "" = "" := rfl
  constructor
  · exact filteredTires_trim_congr ts _ _ (jsTrim_pad a q b ha hb)
  · intro hq
    simp [filteredTires, jsTrim_all_ws q hq, hlow]

/-- C10 witness: padding the concrete query `"acme"` with spaces leaves
the filter result on a concrete list unchanged. -/
theorem C10_witness :
    (∀ c ∈ (" " : String).data, jsWs c) ∧
    filteredTires [acmeTire] (" " ++ "acme" ++ " ") =
      filteredTires [acmeTire] "acme" := by
  refine ⟨by decide, ?_⟩
  exact (C10_query_trimming [acmeTire] "acme" " " " "
    (by decide) (by decide)).1

theorem foldl_add_map (f : Tire → Int) (ts : List Tire) (acc : Int) :
    ts.foldl (fun a t => a + f t) acc = acc + (ts.map f).sum := by
  induction ts generalizing acc with
  | nil => simp
  | cons t r ih => simp [ih, add_assoc]

/-- A record with quantity 3 and a record with quantity 5 (the scenario of
the claim). -/
def tireQ3 : Tire := { acmeTire with id := 2, quantity := jnum 3 }

/-- The second record of the two-record scenario. -/
def tireQ5 : Tire := { acmeTire with id := 3, quantity := jnum 5 }

/-- C6: for a record set with numeric quantities, the "total items"
aggregate is the sum of the quantity over all records and the "SKU count"
is the number of records; both are computed from the full record state and
do not depend on the active filter. -/
theorem C6_aggregates (ts : List Tire)
    (h : ∀ t ∈ ts, ∃ n : Int, t.quantity = jnum n) :
    inventoryCount ts = (ts.map tireQty).sum ∧
    skuCount ts = ts.length ∧
    (∀ (s : AppState) (q : String),
      inventoryCount ({ s with filter := q } : AppState).tires =
        inventoryCount s.tires ∧
      skuCount ({ s with filter := q } : AppState).tires =
        skuCount s.tires) := by
  refine ⟨?_, rfl, fun s q => ⟨rfl, rfl⟩⟩
  have h0 : inventoryCount ts =
      (ts.map fun t => (jsNumber t.quantity).getD 0).sum := by
    simpa [inventoryCount] using
      foldl_add_map (fun t => (jsNumber t.quantity).getD 0) ts 0
  rw [h0]
  congr 1
  refine List.map_congr_left fun t ht => ?_
  obtain ⟨n, hn⟩ := h t ht
  simp [hn, jsNumber, tireQty]

/-- C6 witness: two records with quantities 3 and 5 give total items 8 and
SKU count 2. -/
theorem C6_witness :
    inventoryCount [tireQ3, tireQ5] = 8 ∧ skuCount [tireQ3, tireQ5] = 2 := by
  have h : ∀ t ∈ [tireQ3, tireQ5], ∃ n : Int, t.quantity = jnum n := by
    intro t ht
    rcases List.mem_cons.mp ht with h1 | h1
    · exact ⟨3, by rw [h1]; decide⟩
    · rcases List.mem_cons.mp h1 with h2 | h2
      · exact ⟨5, by rw [h2]; decide⟩
      · simp at h2
  have hc := C6_aggregates [tireQ3, tireQ5] h
  exact ⟨hc.1.trans (by decide), hc.2.1.trans (by decide)⟩

theorem jsOr_jstr_empty (s : String) : jsOr (jstr s) (jstr "") = jstr s := by
  by_cases h : s = "" <;> simp [jsOr, truthy, h]

theorem price_roundtrip (pr : Int) :
    jsOr (jsOr (jnum pr) (jstr "")) (jnum 0) = jnum pr := by
  by_cases h : pr = 0 <;> simp [jsOr, truthy, h]

/-- A record whose text fields are strings and whose price and quantity
are numbers, for the C2 statement. -/
def mkStrTire (i tc told : Nat) (s b m sz p n c : String) (pr q : Int)
    (img : JVal) : Tire :=
  { id := i, sku := jstr s, brand := jstr b, model := jstr m,
    size := jstr sz, ply := jstr p, price := jnum pr, condition := jstr c,
    quantity := jnum q, notes := jstr n, image_path := img,
    created_at := tc, updated_at := told }

/-- C2 (amended): a no-op edit-save of a record whose text fields are
strings, whose condition is a non-empty string, and whose price and
quantity are numbers, strictly increases the updated timestamp and
preserves every field — except that a quantity of 0 becomes 1 (price 0 is
preserved).  (As stated, with quantity 0 preserved, the claim fails: see
the counterexample.) -/
theorem C2_noop_edit_save (i tc told now : Nat) (s b m sz p n c : String)
    (pr q : Int) (img : JVal) (hc : c ≠ "") (hnow : told < now) :
    (mkPayload (editForm (mkStrTire i tc told s b m sz p n c pr q img))
        (mkStrTire i tc told s b m sz p n c pr q img).image_path now).sku =
      jstr s ∧
    (mkPayload (editForm (mkStrTire i tc told s b m sz p n c pr q img))
        (mkStrTire i tc told s b m sz p n c pr q img).image_path now).brand =
      jstr b ∧
    (mkPayload (editForm (mkStrTire i tc told s b m sz p n c pr q img))
        (mkStrTire i tc told s b m sz p n c pr q img).image_path now).model =
      jstr m ∧
    (mkPayload (editForm (mkStrTire i tc told s b m sz p n c pr q img))
        (mkStrTire i tc told s b m sz p n c pr q img).image_path now).size =
      jstr sz ∧
    (mkPayload (editForm (mkStrTire i tc told s b m sz p n c pr q img))
        (mkStrTire i tc told s b m sz p n c pr q img).image_path now).ply =
      jstr p ∧
    (mkPayload (editForm (mkStrTire i tc told s b m sz p n c pr q img))
        (mkStrTire i tc told s b m sz p n c pr q img).image_path now).price =
      jnum pr ∧
    (mkPayload (editForm (mkStrTire i tc told s b m sz p n c pr q img))
        (mkStrTire i tc told s b m sz p n c pr q img).image_path
        now).condition = jstr c ∧
    (mkPayload (editForm (mkStrTire i tc told s b m sz p n c pr q img))
        (mkStrTire i tc told s b m sz p n c pr q img).image_path now).notes =
      jstr n ∧
    (mkPayload (editForm (mkStrTire i tc told s b m sz p n c pr q img))
        (mkStrTire i tc told s b m sz p n c pr q img).image_path
        now).image_path = img ∧
    (mkPayload (editForm (mkStrTire i tc told s b m sz p n c pr q img))
        (mkStrTire i tc told s b m sz p n c pr q img).image_path
        now).quantity = jnum (if q = 0 then 1 else q) ∧
    told < (mkPayload (editForm (mkStrTire i tc told s b m sz p n c pr q img))
        (mkStrTire i tc told s b m sz p n c pr q img).image_path
        now).updated_at := by
  refine ⟨jsOr_jstr_empty s, jsOr_jstr_empty b, jsOr_jstr_empty m,
    jsOr_jstr_empty sz, jsOr_jstr_empty p, price_roundtrip pr, ?_,
    jsOr_jstr_empty n, rfl, ?_, hnow⟩
  · simp [mkPayload, editForm, mkStrTire, jsOr, truthy, hc]
  · by_cases h : q = 0 <;>
      simp [mkPayload, editForm, mkStrTire, jsOr, truthy, jsNumber, h]

/-- C2 witness: a concrete no-op edit-save preserving a nonzero quantity. -/
theorem C2_witness :
    ("New" : String) ≠ "" ∧ (10 : Nat) < 20 ∧
    (mkPayload (editForm (mkStrTire 1 5 10 "T-100" "Acme" "Road" "225" "4"
        "note" "New" 49 7 jnull))
      (mkStrTire 1 5 10 "T-100" "Acme" "Road" "225" "4" "note" "New" 49 7
        jnull).image_path 20).quantity = jnum (if (7 : Int) = 0 then 1 else 7) := by
  refine ⟨by decide, by decide, ?_⟩
  exact (C2_noop_edit_save 1 5 10 20 "T-100" "Acme" "Road" "225" "4" "note"
    "New" 49 7 jnull (by decide)
    (by decide)).2.2.2.2.2.2.2.2.2.1

/-- A record with quantity 0, on which the no-op edit-save is not
field-preserving. -/
def qtyZeroTire : Tire :=
  { id := 9, sku := jstr "T-0", brand := jstr "Acme", model := jstr "R",
    size := jstr "225", ply := jstr "4", price := jnum 10,
    condition := jstr "New", quantity := jnum 0, notes := jstr "",
    image_path := jnull, created_at := 5, updated_at := 5 }

/-- C2 counterexample: opening a record with quantity 0 for edit and
saving without modification does not preserve the quantity — the payload
carries quantity 1 (the edit form seeds `tire.quantity || 1`). -/
theorem C2_quantity_zero_cex :
    (mkPayload (editForm qtyZeroTire) qtyZeroTire.image_path 20).quantity ≠
      qtyZeroTire.quantity ∧
    (mkPayload (editForm qtyZeroTire) qtyZeroTire.image_path 20).quantity =
      jnum 1 := by decide

/-- C3 (amended): in the saved payload, quantity coerces to 0 whenever the
submitted value is non-numeric or blank; price coerces to 0 when blank or
absent, but a non-empty non-numeric price string is passed through
unchanged (not coerced, contrary to the claim as stated — see the
counterexample); the value 1 is only the form default of `resetForm`, and
submit-time coercion never produces quantity 1. -/
theorem C3_payload_coercions (f : Form) (ip : JVal) (now : Nat) :
    (jsNumber f.quantity = none → (mkPayload f ip now).quantity = jnum 0) ∧
    (mkPayload { f with quantity := jstr "" } ip now).quantity = jnum 0 ∧
    (mkPayload { f with price := jstr "" } ip now).price = jnum 0 ∧
    (mkPayload { f with price := jnull } ip now).price = jnum 0 ∧
    (∀ s : String, s ≠ "" →
      (mkPayload { f with price := jstr s } ip now).price = jstr s) ∧
    initialForm.quantity = jnum 1 ∧
    ((mkPayload f ip now).quantity = jnum 1 → jsNumber f.quantity = some 1) := by
  refine ⟨?_, ?_, ?_, ?_, ?_, rfl, ?_⟩
  · intro h
    simp [mkPayload, h]
  · simp [mkPayload, jsNumber, trimChars]
  · simp [mkPayload, jsOr, truthy]
  · simp [mkPayload, jsOr, truthy]
  · intro s hs
    simp [mkPayload, jsOr, truthy, hs]
  · intro h
    simp only [mkPayload, JVal.jnum.injEq] at h
    cases hq : jsNumber f.quantity with
    | none => rw [hq] at h; exact absurd h (by decide)
    | some n => rw [hq] at h; simp at h; rw [h]

/-- A form whose submitted quantity is a non-numeric string. -/
def badQtyForm : Form := { initialForm with quantity := jstr "x" }

/-- C3 witness: a non-numeric quantity coerces to 0 and a non-empty
non-numeric price passes through. -/
theorem C3_witness :
    jsNumber badQtyForm.quantity = none ∧
    (mkPayload badQtyForm jnull 0).quantity = jnum 0 ∧
    (mkPayload { badQtyForm with price := jstr "9x" } jnull 0).price =
      jstr "9x" := by
  refine ⟨by decide, ?_, ?_⟩
  · exact (C3_payload_coercions badQtyForm jnull 0).1 (by decide)
  · exact (C3_payload_coercions badQtyForm jnull 0).2.2.2.2.1 "9x" (by decide)

/-- C3 counterexample: the submitted price `"abc"` is non-numeric yet the
payload written to the store keeps the string instead of coercing it to
the numeric default 0. -/
theorem C3_price_not_coerced_cex :
    (mkPayload { initialForm with price := jstr "abc" } jnull 0).price =
      jstr "abc" ∧
    (mkPayload { initialForm with price := jstr "abc" } jnull 0).price ≠
      jnum 0 := by decide

/-- The state with a pending image file in the form. -/
def withFile (s : AppState) (fl : UFile) : AppState :=
  { s with form := { s.form with image_file := some fl } }

/-- The state with no pending image file in the form. -/
def withoutFile (s : AppState) : AppState :=
  { s with form := { s.form with image_file := none } }

/-- C7: every failed backend operation is caught at its triggering action
and leaves the pre-action UI intact: a fetch failure leaves the record
list untouched; a save failure — at the upload step or at the write step,
with or without a pending file — leaves the form draft, the form-open
flag, the editing target and the record list untouched; a delete failure
leaves the record list untouched. -/
theorem C7_failures_preserve_state (s : AppState) (m : String) (now : Nat)
    (rand : String) (fl : UFile) (up wr : Except String Unit)
    (fr : Except String (List Tire)) (idv : Nat) :
    (fetchTiresStep s (.error m)).tires = s.tires ∧
    ((handleSaveStep (withFile s fl) now rand (.error m) wr fr).1.form =
        (withFile s fl).form ∧
      (handleSaveStep (withFile s fl) now rand (.error m) wr fr).1.formOpen =
        s.formOpen ∧
      (handleSaveStep (withFile s fl) now rand (.error m) wr fr).1.editing =
        s.editing ∧
      (handleSaveStep (withFile s fl) now rand (.error m) wr fr).1.tires =
        s.tires) ∧
    ((handleSaveStep (withoutFile s) now rand up (.error m) fr).1.form =
        (withoutFile s).form ∧
      (handleSaveStep (withoutFile s) now rand up (.error m) fr).1.formOpen =
        s.formOpen ∧
      (handleSaveStep (withoutFile s) now rand up (.error m) fr).1.editing =
        s.editing ∧
      (handleSaveStep (withoutFile s) now rand up (.error m) fr).1.tires =
        s.tires) ∧
    ((handleSaveStep (withFile s fl) now rand (.ok ()) (.error m) fr).1.form =
        (withFile s fl).form ∧
      (handleSaveStep (withFile s fl) now rand (.ok ()) (.error m)
          fr).1.formOpen = s.formOpen ∧
      (handleSaveStep (withFile s fl) now rand (.ok ()) (.error m)
          fr).1.editing = s.editing ∧
      (handleSaveStep (withFile s fl) now rand (.ok ()) (.error m)
          fr).1.tires = s.tires) ∧
    (handleDeleteStep s idv true (.error m) fr).1.tires = s.tires :=
  ⟨rfl, ⟨rfl, rfl, rfl, rfl⟩, ⟨rfl, rfl, rfl, rfl⟩, ⟨rfl, rfl, rfl, rfl⟩,
   rfl⟩

/-- C8: the backend delete call is only issued after the blocking prompt
is confirmed — a declined confirmation issues no backend call and leaves
the state unchanged; a confirmed and successful delete issues exactly the
delete call followed by a refresh, and the list is replaced by the
refetched data. -/
theorem C8_delete_needs_confirmation (s : AppState) (idv : Nat)
    (dr : Except String Unit) (fr : Except String (List Tire))
    (data : List Tire) :
    handleDeleteStep s idv false dr fr = (s, []) ∧
    (handleDeleteStep s idv true (.ok ()) (.ok data)).1.tires = data ∧
    (handleDeleteStep s idv true (.ok ()) (.ok data)).2 =
      [Call.delete idv, Call.fetch] :=
  ⟨rfl, rfl, rfl⟩

/-- C9: on submit with a pending image file, the upload is issued first
under the generated name (timestamp, dash, random suffix, dot, original
file extension), and that name is the payload's image reference for both
the insert and the update route; with no pending file the payload keeps
the edited record's image reference, or null for a new record; and the
payload's image reference is exactly the value substituted in. -/
theorem C9_image_upload_naming (s : AppState) (now : Nat) (rand : String)
    (fl : UFile) (fr : Except String (List Tire)) (t : Tire) (f2 : Form)
    (ip : JVal) (n2 : Nat) :
    (handleSaveStep { withFile s fl with editing := none } now rand (.ok ())
        (.ok ()) fr).2 =
      [Call.upload (fileNameOf now rand fl),
       Call.insert (mkPayload ({ withFile s fl with editing := none }
           : AppState).form (jstr (fileNameOf now rand fl)) now),
       Call.fetch] ∧
    (handleSaveStep { withFile s fl with editing := some t } now rand
        (.ok ()) (.ok ()) fr).2 =
      [Call.upload (fileNameOf now rand fl),
       Call.update t.id (mkPayload ({ withFile s fl with editing := some t }
           : AppState).form (jstr (fileNameOf now rand fl)) now),
       Call.fetch] ∧
    (handleSaveStep { withoutFile s with editing := some t } now rand
        (.ok ()) (.ok ()) fr).2 =
      [Call.update t.id (mkPayload ({ withoutFile s with editing := some t }
           : AppState).form t.image_path now), Call.fetch] ∧
    (handleSaveStep { withoutFile s with editing := none } now rand (.ok ())
        (.ok ()) fr).2 =
      [Call.insert (mkPayload ({ withoutFile s with editing := none }
           : AppState).form jnull now), Call.fetch] ∧
    fileNameOf now rand fl =
      toString now ++ "-" ++ rand ++ "." ++ fileExt fl.name ∧
    (mkPayload f2 ip n2).image_path = ip :=
  ⟨rfl, rfl, rfl, rfl, rfl, rfl⟩
